import Mathlib

/-!
Verification of the heading/content extraction-and-aggregation pipeline of the
SEO content outline generator (`src/main.py`).

The Python program is shallowly embedded:

* Python strings are `String`; Python `str.strip()`, `str.lower()`, `str.split()`
  and `" ".join` are modelled by character-list functions (`pyStrip`, `pyLower`,
  `pyWords`, `pyJoin`) so every definition reduces by computation.
* A parsed HTML document (the BeautifulSoup tree built by the `html.parser`
  builder, which never raises on malformed input) is the inductive `HNode`
  tree; a whole document is the forest of its top-level nodes.
* Python code that can raise returns `Except String _`; a raised exception is
  `.error`.
* `numpy` floating-point division by zero yields a non-finite value (NaN here,
  since the numerator is zero whenever the denominator is); non-finite results
  are modelled as `none`.
* The OpenAI embedding service is external; the composite
  "embed a fragment, then take cosine similarity with the keyword embedding"
  is a parameter `score : String → Except String ℚ` (embedding failures
  propagate as exceptions in the source).
* Python's `list.sort(key=..., reverse=True)` is a stable descending sort,
  modelled by the stable insertion sort `pySortDesc`;
  `Counter(...).most_common(10)` is stable-descending-by-count over the
  counter's items, which are in first-occurrence order.
-/

/-- The whitespace characters recognised by Python's `str.strip()`/`str.split()`
(space, tab, newline, carriage return, vertical tab, form feed). -/
def isPyWS (c : Char) : Bool :=
  c == ' ' || c == '\t' || c == '\n' || c == '\r' || c == '\x0b' || c == '\x0c'

/-- Python `str.strip()`: drop leading and trailing whitespace. -/
def pyStrip (s : String) : String :=
  ⟨((s.data.dropWhile isPyWS).reverse.dropWhile isPyWS).reverse⟩

/-- Python `str.lower()` (ASCII case suffices for the inputs considered). -/
def pyLower (s : String) : String :=
  ⟨s.data.map Char.toLower⟩

/-- Helper for `pyWords`: accumulate the current word (reversed) while
scanning the character list. -/
def wordsAux : List Char → List Char → List String
  | [], [] => []
  | [], cur => [⟨cur.reverse⟩]
  | c :: rest, cur =>
    if isPyWS c then
      if cur.isEmpty then wordsAux rest [] else ⟨cur.reverse⟩ :: wordsAux rest []
    else wordsAux rest (c :: cur)

/-- Python `str.split()` with no argument: split on runs of whitespace,
returning no empty strings. -/
def pyWords (s : String) : List String := wordsAux s.data []

/-- The whitespace-split word count of a string (`len(p.split())`). -/
def wordCount (s : String) : Nat := (pyWords s).length

/-- Python `sep.join(parts)`. -/
def pyJoin (sep : String) : List String → String
  | [] => ""
  | [s] => s
  | s :: rest => s ++ sep ++ pyJoin sep rest

/-- Python `len` of a string: its number of characters. -/
def pyLen (s : String) : Nat := s.data.length

section PySort

variable {β K : Type} [LinearOrder K]

/-- Insert a keyed element into a descending-sorted list, before the first
element whose key is `≤` its own.  Combined with `pySortDesc` this models
Python's stable `list.sort(key=..., reverse=True)`: elements with equal keys
keep their original relative order. -/
def insertDesc (p : β × K) : List (β × K) → List (β × K)
  | [] => [p]
  | q :: qs => if q.2 ≤ p.2 then p :: q :: qs else q :: insertDesc p qs

/-- Stable descending sort by the second (key) component: the model of
`scored.sort(key=lambda x: x[1], reverse=True)`. -/
def pySortDesc : List (β × K) → List (β × K)
  | [] => []
  | p :: ps => insertDesc p (pySortDesc ps)

end PySort

/-!
## The parsed HTML tree

`BeautifulSoup(html_content, "html.parser")` parses best-effort and never
raises; the parse result is a tree of element and text nodes.  `HNode` is
that tree; a document (the soup) is the forest of its top-level nodes.
Element attributes are the name/value pairs; BeautifulSoup's multi-valued
`class` matching is modelled in `hasClass`.
-/

inductive HNode where
  | elem (tag : String) (attrs : List (String × String)) (children : List HNode)
  | text (s : String)

/-- First value of an attribute, if present (`tag.get(name)` / `tag[name]`). -/
def getAttr (attrs : List (String × String)) (key : String) : Option String :=
  (attrs.find? (fun kv => kv.1 == key)).map Prod.snd

/-- BeautifulSoup `find_all(attrs={'class': v})`: `class` is multi-valued, so
`v` matches when it is one of the whitespace-separated class tokens (or the
whole attribute string). -/
def hasClass (attrs : List (String × String)) (v : String) : Bool :=
  match getAttr attrs "class" with
  | none => false
  | some c => v ∈ pyWords c || v == c

/-- BeautifulSoup `find_all(attrs={'id': v})`: exact match on the `id`
attribute. -/
def hasId (attrs : List (String × String)) (v : String) : Bool :=
  getAttr attrs "id" == some v

mutual
/-- `element.decompose()` applied to every element matched by `p` (matching on
tag name and attributes, as `find_all` does): a matching element disappears
with its whole subtree; kept elements have the removal recursively applied to
their children. -/
def removeNode (p : String → List (String × String) → Bool) : HNode → Option HNode
  | .text s => some (.text s)
  | .elem t a cs => if p t a then none else some (.elem t a (removeForest p cs))

def removeForest (p : String → List (String × String) → Bool) : List HNode → List HNode
  | [] => []
  | n :: ns =>
    match removeNode p n with
    | none => removeForest p ns
    | some m => m :: removeForest p ns
end

mutual
/-- The `(tag, attrs)` heads of all element nodes of a subtree, in document
(pre-)order.  This is the data the removal and search predicates observe. -/
def elemHeads : HNode → List (String × List (String × String))
  | .text _ => []
  | .elem t a cs => (t, a) :: elemHeadsF cs

def elemHeadsF : List HNode → List (String × List (String × String))
  | [] => []
  | n :: ns => elemHeads n ++ elemHeadsF ns
end

mutual
/-- All element nodes of a forest, in document (pre-)order: the search space
of `soup.find_all(...)` / `soup.find(...)`. -/
def elemsOf : HNode → List HNode
  | .text _ => []
  | .elem t a cs => .elem t a cs :: elemsOfF cs

def elemsOfF : List HNode → List HNode
  | [] => []
  | n :: ns => elemsOf n ++ elemsOfF ns
end

mutual
/-- All text-node contents of a subtree in document order (the `strings` that
`get_text` joins). -/
def textsOf : HNode → List String
  | .text s => [s]
  | .elem _ _ cs => textsOfF cs

def textsOfF : List HNode → List String
  | [] => []
  | n :: ns => textsOf n ++ textsOfF ns
end

/-!
## Boilerplate removal and the content extractor (`extract_headings_and_body`)
-/

/-- `tags_to_remove` (src/main.py line 39). -/
def tagsToRemove : List String :=
  ["script", "style", "noscript", "header", "footer", "nav", "aside"]

/-- `classes_ids_to_remove` (src/main.py lines 44-47). -/
def classesIdsToRemove : List String :=
  ["nav", "navigation", "sidebar", "footer", "header", "menu",
   "breadcrumbs", "breadcrumb", "site-footer", "site-header",
   "widget", "widgets", "site-navigation", "main-navigation",
   "secondary-navigation", "site-sidebar"]

/-- The removal passes run by lines 40-52, in source order: one
`find_all(tag)`+`decompose` pass per removed tag type, then for each
denylisted identifier one pass on `class` and one on `id`. -/
def removalPasses : List (String → List (String × String) → Bool) :=
  tagsToRemove.map (fun tagName => fun t _ => t == tagName)
    ++ classesIdsToRemove.flatMap
        (fun v => [fun _ a => hasClass a v, fun _ a => hasId a v])

/-- Lines 39-52: run all removal passes over the document. -/
def stripBoilerplate (doc : List HNode) : List HNode :=
  removalPasses.foldl (fun d p => removeForest p d) doc

/-- An element head matching any removal pass: a removed tag type, or a
denylisted `class`/`id` identifier. -/
def denylisted (t : String) (a : List (String × String)) : Bool :=
  removalPasses.any (fun p => p t a)

/-- Does an element node's head satisfy `p`?  Text nodes never match a
`find_all`/`find` search by tag/attributes. -/
def elemMatch (p : String → List (String × String) → Bool) : HNode → Bool
  | .elem t a _ => p t a
  | .text _ => false

/-- `scope.find_all(...)`: all matching elements in document order. -/
def findAll (p : String → List (String × String) → Bool) (doc : List HNode) :
    List HNode :=
  (elemsOfF doc).filter (elemMatch p)

/-- `scope.find(...)`: the first matching element in document order. -/
def findFirst (p : String → List (String × String) → Bool) (doc : List HNode) :
    Option HNode :=
  (elemsOfF doc).find? (elemMatch p)

/-- The stripped non-empty descendant strings of a node
(BeautifulSoup `stripped_strings`). -/
def strippedTexts (n : HNode) : List String :=
  ((textsOf n).map pyStrip).filter (fun s => s != "")

/-- `h.get_text(separator=' ', strip=True)`: strip each descendant string,
drop the empty ones, join with a single space. -/
def get_text (n : HNode) : String := pyJoin " " (strippedTexts n)

/-- Truthiness of `h.get_text(strip=True)`: some descendant string survives
stripping. -/
def hasText (n : HNode) : Bool := !(strippedTexts n).isEmpty

/-- BeautifulSoup `tag.string`: the single `NavigableString` child, found
through a chain of single-child tags; `None` whenever the tag has no child or
more than one child. -/
def nodeString : HNode → Option String
  | .text s => some s
  | .elem _ _ [c] => nodeString c
  | .elem _ _ _ => none

def childrenOf : HNode → List HNode
  | .elem _ _ cs => cs
  | .text _ => []

structure HeadingSet where
  h1 : List String
  h2 : List String
  h3 : List String
  h4 : List String
deriving DecidableEq

structure PageExtract where
  meta_title : String
  meta_description : String
  headings : HeadingSet
  paragraphs : List String
deriving DecidableEq

/-- One heading/paragraph extraction line (lines 63-70):
`[h.get_text(separator=' ', strip=True) for h in scope.find_all(lvl) if h.get_text(strip=True)]`. -/
def extractLevel (scope : List HNode) (lvl : String) : List String :=
  ((findAll (fun t _ => t == lvl) scope).filter hasText).map get_text

/-- Line 71: `soup.title.string.strip() if soup.title else ''`.  When the
title tag exists but `.string` is `None` (no child, or several children),
`None.strip()` raises `AttributeError`. -/
def titleResult (soup : List HNode) : Except String String :=
  match findFirst (fun t _ => t == "title") soup with
  | none => .ok ""
  | some tt =>
    match nodeString tt with
    | none => .error "AttributeError: NoneType object has no attribute strip"
    | some s => .ok (pyStrip s)

/-- Lines 72-73: `soup.find('meta', attrs={'name': 'description'})` then
`meta_description_tag['content'].strip() if meta_description_tag else ''`.
When the meta tag exists but has no `content` attribute, the subscript
raises `KeyError`. -/
def descriptionResult (soup : List HNode) : Except String String :=
  match (elemHeadsF soup).find?
      (fun ta => ta.1 == "meta" && (getAttr ta.2 "name" == some "description")) with
  | none => .ok ""
  | some ta =>
    match getAttr ta.2 "content" with
    | none => .error "KeyError: content"
    | some c => .ok (pyStrip c)

/-- Lines 54-55: `soup.find('main') or soup.find('article') or
soup.find('div', class_='content') or soup.find('div', id='content')`
(a found tag is always truthy in BeautifulSoup). -/
def findMainContent (soup : List HNode) : Option HNode :=
  match findFirst (fun t _ => t == "main") soup with
  | some m => some m
  | none =>
    match findFirst (fun t _ => t == "article") soup with
    | some m => some m
    | none =>
      match findFirst (fun t a => t == "div" && hasClass a "content") soup with
      | some m => some m
      | none => findFirst (fun t a => t == "div" && hasId a "content") soup

/-- The tags decomposed again in the no-main-content fallback (line 59). -/
def fallbackTags : List String := ["header", "nav", "footer", "aside"]

/-- Lines 54-75 applied to the already-swept soup: select the content scope,
extract headings and paragraphs from it, then read title and
meta-description from the whole (possibly further mutated) soup. -/
def extractFromSoup (soup : List HNode) : Except String PageExtract :=
  let mainContent := findMainContent soup
  let soup2 := match mainContent with
    | some _ => soup
    | none => fallbackTags.foldl (fun d t => removeForest (fun tg _ => tg == t) d) soup
  let scope : List HNode := match mainContent with
    | some m => childrenOf m
    | none =>
      match findFirst (fun t _ => t == "body") soup2 with
      | some b => childrenOf b
      | none => soup2
  let headings : HeadingSet :=
    { h1 := extractLevel scope "h1", h2 := extractLevel scope "h2",
      h3 := extractLevel scope "h3", h4 := extractLevel scope "h4" }
  let paragraphs := extractLevel scope "p"
  match titleResult soup2, descriptionResult soup2 with
  | .error e, _ => .error e
  | .ok _, .error e => .error e
  | .ok mt, .ok md => .ok ⟨mt, md, headings, paragraphs⟩

/-- `extract_headings_and_body` (lines 37-75): sweep boilerplate, then
extract from the swept soup. -/
def extract_headings_and_body (doc : List HNode) : Except String PageExtract :=
  extractFromSoup (stripBoilerplate doc)

/-!
## Heading aggregation (`analyze_headings`, lines 371-384)
-/

/-- The distinct tokens of a stream in first-occurrence order: the key order
of a Python `Counter` built by iterating the stream (dict insertion order). -/
def firstSeen : List String → List String
  | [] => []
  | t :: ts => t :: (firstSeen ts).filter (fun u => u != t)

/-- `Counter(tokens).items()`: each distinct token with its multiplicity, in
first-occurrence order. -/
def counterItems (tokens : List String) : List (String × ℕ) :=
  (firstSeen tokens).map (fun t => (t, tokens.count t))

/-- `Counter(tokens).most_common(k)`: items sorted by descending count,
ties kept in first-occurrence order (`heapq.nlargest` is stable), first `k`. -/
def most_common (k : ℕ) (tokens : List String) : List (String × ℕ) :=
  (pySortDesc (counterItems tokens)).take k

structure LevelStats where
  count : ℕ
  avg_length : ℚ
  common_words : List (String × ℕ)
  examples : List String
deriving DecidableEq

structure HeadingAnalysis where
  h1 : LevelStats
  h2 : LevelStats
  h3 : LevelStats
  h4 : LevelStats
  total_headings_count : ℕ
deriving DecidableEq

/-- `[h for url_headings in all_headings for h in url_headings[level]]`. -/
def levelHeadings (all_headings : List HeadingSet) (proj : HeadingSet → List String) :
    List String :=
  (all_headings.map proj).flatten

/-- The per-level record built by lines 377-382: count, average character
length (`0` when the level is empty), `most_common(10)` of the lowercased
whitespace tokens of the joined text, and the first 10 headings as examples. -/
def levelStats (hs : List String) : LevelStats :=
  { count := hs.length
    avg_length :=
      if hs.isEmpty then 0
      else (hs.map (fun h => (pyLen h : ℚ))).sum / (hs.length : ℚ)
    common_words := most_common 10 (pyWords (pyLower (pyJoin " " hs)))
    examples := hs.take 10 }

/-- `analyze_headings` (lines 371-384). -/
def analyze_headings (all_headings : List HeadingSet) : HeadingAnalysis :=
  let l1 := levelHeadings all_headings HeadingSet.h1
  let l2 := levelHeadings all_headings HeadingSet.h2
  let l3 := levelHeadings all_headings HeadingSet.h3
  let l4 := levelHeadings all_headings HeadingSet.h4
  { h1 := levelStats l1, h2 := levelStats l2, h3 := levelStats l3, h4 := levelStats l4
    total_headings_count := l1.length + l2.length + l3.length + l4.length }

/-!
## Cosine similarity (line 77-78)

`np.dot(a, b) / (np.linalg.norm(a) * np.linalg.norm(b))` with no zero-norm
guard.  Embedding vectors are rational lists; the norm lives in `ℝ` because
of the square root.  IEEE division by zero produces a non-finite value
(NaN here: a zero denominator forces a zero numerator), modelled as `none`;
no exception is raised either way.
-/

/-- `np.dot(a, b)` for equal-length vectors. -/
def dotQ (a b : List ℚ) : ℚ := ((a.zip b).map (fun p => p.1 * p.2)).sum

/-- The squared Euclidean norm (a rational, so it stays computable). -/
def normSq (a : List ℚ) : ℚ := (a.map (fun x => x * x)).sum

/-- `np.linalg.norm(a)`. -/
noncomputable def npNorm (a : List ℚ) : ℝ := Real.sqrt ((normSq a : ℚ) : ℝ)

/-- IEEE float division: a zero divisor yields a non-finite result (`none`),
never an exception. -/
noncomputable def fdiv (x y : ℝ) : Option ℝ := if y = 0 then none else some (x / y)

/-- `cosine_similarity` (lines 77-78). -/
noncomputable def cosine_similarity (a b : List ℚ) : Option ℝ :=
  fdiv ((dotQ a b : ℚ) : ℝ) (npNorm a * npNorm b)

/-!
## Relevance ranking (`generate_semantic_insights`, `generate_body_insights`)

The composite "embed this fragment and score it against the keyword
embedding" is the external part of the ranker (network calls to the
embedding service); it is the parameter `score`, returning `.error` when the
service fails (in the source such a failure raises through the caller).
-/

/-- Lines 119-120 / 140-141: sort the scored fragments descending by score
(Python's sort is stable) and keep the first five texts. -/
def topFragments (scored : List (String × ℚ)) : List String :=
  ((pySortDesc scored).take 5).map Prod.fst

/-- Lines 103-108: candidate fragments for heading ranking are each
document's `h2`, `h3` then `h4` headings, in document order; `h1` is never
collected. -/
def semanticCandidates (all_headings : List HeadingSet) : List String :=
  all_headings.flatMap (fun h => h.h2 ++ h.h3 ++ h.h4)

/-- The empty-candidate sentinel of `generate_semantic_insights` (line 111). -/
def semanticSentinel : String := "No additional semantic insights available."

/-- The empty-candidate sentinel of `generate_body_insights` (line 132). -/
def bodySentinel : String := "No additional body insights available."

/-- `get_batch_embeddings` composed with per-fragment scoring: one batch
request for all candidate texts, in order; a service failure fails the whole
batch. -/
def batchScores (score : String → Except String ℚ) : List String → Except String (List ℚ)
  | [] => .ok []
  | c :: cs =>
    match score c, batchScores score cs with
    | .error e, _ => .error e
    | .ok _, .error e => .error e
    | .ok q, .ok qs => .ok (q :: qs)

/-- `generate_semantic_insights` (lines 102-126). -/
def generate_semantic_insights (score : String → Except String ℚ)
    (all_headings : List HeadingSet) : Except String String :=
  let competitor_headings := semanticCandidates all_headings
  if competitor_headings.isEmpty then .ok semanticSentinel
  else
    match batchScores score competitor_headings with
    | .error e => .error e
    | .ok scores =>
      let scored := competitor_headings.zip scores
      let top_headings := topFragments scored
      let summary := "Topically relevant areas based on competitor headings:\n"
        ++ top_headings.foldl (fun acc th => acc ++ "- " ++ th ++ "\n") ""
        ++ "\nConsider covering these topics thoroughly."
      .ok (pyStrip summary)

/-- Line 129: `[p for plist in all_paragraphs for p in plist if len(p.split()) > 5]`. -/
def bodyCandidates (all_paragraphs : List (List String)) : List String :=
  all_paragraphs.flatten.filter (fun p => decide (5 < wordCount p))

/-- `generate_body_insights` (lines 128-146). -/
def generate_body_insights (score : String → Except String ℚ)
    (all_paragraphs : List (List String)) : Except String String :=
  let competitor_paragraphs := bodyCandidates all_paragraphs
  if competitor_paragraphs.isEmpty then .ok bodySentinel
  else
    match batchScores score competitor_paragraphs with
    | .error e => .error e
    | .ok scores =>
      let scored := competitor_paragraphs.zip scores
      let top_paras := topFragments scored
      let insights := (List.enumFrom 1 top_paras).foldl
        (fun acc it => acc ++ "\nParagraph " ++ toString it.1 ++ ":\n" ++ it.2 ++ "\n")
        "Competitor Body Insights (relevant paragraphs):\n"
      .ok (pyStrip insights)

/-!
## Article-length guidance and prompt assembly
(`generate_optimized_structure_with_insights`, lines 172-245)

`article_length` and `content_mode` are the raw radio-button strings
("Short" / "Medium" / "Long"; "Just Outline & Guidance" / "Full Content"),
dispatched on by string comparison exactly as in the source.  The prompt is
the text the function would hand to the generation service; the network
call, validation and UI error reporting that follow are outside the core.
-/

/-- `word_count_range` as assigned by the `if/elif/else` on lines 175-189
(any string other than "Short"/"Medium" falls to the Long branch). -/
def word_count_range (article_length : String) : String :=
  if article_length == "Short" then "around 750 words"
  else if article_length == "Medium" then "approximately 1250-1500 words"
  else "approximately 1500-3000 words"

/-- `paragraph_guidance` as assigned by the same `if/elif/else`
(triple-quoted strings, leading and trailing newlines included). -/
def paragraph_guidance (article_length : String) : String :=
  if article_length == "Short" then
    "\n- If Full Content: ~2 paragraphs (~100 words each) per H2; H3/H4 ~75 words each.\n- If Outline mode: Just 1-2 sentences per heading.\n"
  else if article_length == "Medium" then
    "\n- If Full Content: Each H2 ~2-3 paragraphs (~100 words each); H3/H4 ~100 words each.\n- If Outline mode: Just 1-2 sentences per heading.\nUse H3s/H4s to break content.\n"
  else
    "\n- If Full Content: Each H2 ~3 paragraphs (~100 words each); multiple H3/H4 (~100 words each).\n- If Outline mode: Just 1-2 sentences per heading.\nAim for ~20-25 headings total. More headings vs. overly long sections.\n"

/-- Line 201: `competitor_meta_info[:500] + "..." if len(...) > 500 else ...`. -/
def competitorSummary (competitor_meta_info : String) : String :=
  if 500 < pyLen competitor_meta_info then
    (⟨competitor_meta_info.data.take 500⟩ : String) ++ "..."
  else competitor_meta_info

/-- The prompt f-string of lines 204-245 with its interpolations spelled
out.  Note that it interpolates only the competitor summary, the keyword,
the mode and the two length-guidance strings. -/
def promptText (keyword competitor_summary content_mode article_length : String) :
    String :=
  "\nIMPORTANT: Your output MUST include the following sections EXACTLY as formatted:\n"
  ++ "**Meta Title:** [Your meta title here]\n"
  ++ "**Meta Description:** [Your meta description here]\n"
  ++ "**H1:** [Your H1 here]\n"
  ++ "**H2:** [Your H2 headings and guidance]\n"
  ++ "...\n"
  ++ "**Final Summary:** [Your final summary here]\n\n"
  ++ "Do NOT output any competitor data verbatim. Use the competitor insights below only for context.\n\n"
  ++ "[Competitor Data Summary]:\n"
  ++ competitor_summary
  ++ "\n\nNow, create a content outline for the target keyword \"" ++ keyword
  ++ "\" with the following requirements:\n"
  ++ "- Mode: " ++ content_mode ++ " (Full Content or Outline)\n"
  ++ "- Word Count Target: " ++ word_count_range article_length ++ "\n"
  ++ "- " ++ paragraph_guidance article_length ++ "\n\n"
  ++ "Instructions:\n"
  ++ "1. Provide meta title, meta description, and H1 in this format:\n"
  ++ "   **Meta Title:** ...\n"
  ++ "   **Meta Description:** ...\n"
  ++ "   **H1:** ...\n"
  ++ "2. Produce a structured outline with H2, H3, and H4 headings covering all subtopics.\n"
  ++ "3. "
  ++ (if content_mode == "Full Content" then
        "Write fully formed, publish-ready paragraphs under each heading."
      else
        "Provide only 1-2 sentence guidance under each heading (no full paragraphs).")
  ++ "\n4. End with a **Final Summary** section.\n\n"
  ++ "**Example (Outline mode):**\n"
  ++ "**Meta Title:** My Title\n"
  ++ "**Meta Description:** My Description\n"
  ++ "**H1:** My H1\n\n"
  ++ "**H2: Topic Heading**\n"
  ++ "(1-2 sentences guidance here, no full paragraphs.)\n\n"
  ++ "**Final Summary**\n"
  ++ "(A brief concluding summary.)\n\n"
  ++ "Remember: Do not output any competitor data. Follow the template exactly.\n"

/-- Lines 172-245 up to the generation request: compute the two insight
texts (their failures propagate; an exception in them is raised before the
`try` block starts) and assemble the prompt.  The `heading_analysis`
argument is accepted, as in the source, and appears nowhere in the body:
the source never reads it. -/
def generate_optimized_structure_prompt (keyword : String)
    (heading_analysis : HeadingAnalysis) (competitor_meta_info : String)
    (content_mode : String) (article_length : String)
    (score : String → Except String ℚ)
    (all_headings : List HeadingSet) (all_paragraphs : List (List String)) :
    Except String String :=
  match generate_semantic_insights score all_headings with
  | .error e => .error e
  | .ok _semantic_insights =>
    match generate_body_insights score all_paragraphs with
    | .error e => .error e
    | .ok _body_insights =>
      .ok (promptText keyword (competitorSummary competitor_meta_info)
            content_mode article_length)

/-!
## The spec-side size policy

`specSizePolicy` follows the words of the specification (§4.4), to be
compared with what the source computes: the spec derives integer
heading-count bounds from `total_heading_count`, while the source's
length policy (above) never reads any heading count.
-/

structure SizePolicy where
  base_min : ℤ
  base_max : ℤ
  extra : ℤ
  effective_min : ℤ
  effective_max : ℤ
deriving DecidableEq

/-- The size-policy arithmetic described by the spec: an `extra` bonus when
`total_heading_count > 20`, capped by the tier's spread, shifting both
bounds, with a final clamp of the minimum. -/
def specSizePolicy (base_min base_max : ℤ) (total_heading_count : ℤ) : SizePolicy :=
  let extra := if total_heading_count > 20
    then min ((total_heading_count - 20) / 10) (base_max - base_min)
    else 0
  let emin := base_min + extra
  let emax := base_max + extra
  { base_min := base_min, base_max := base_max, extra := extra
    effective_min := min emin emax, effective_max := emax }

/-!
## Support lemmas for the claims
-/

/-- `zip(cands, get_batch_embeddings(cands))` with a total scorer is the
per-candidate pairing. -/
def scoreList (score : String → ℚ) (cands : List String) : List (String × ℚ) :=
  cands.map (fun c => (c, score c))

/-!
## Properties of the stable sort
-/

section PySortLemmas

variable {β K : Type} [LinearOrder K]

theorem insertDesc_perm (p : β × K) (l : List (β × K)) :
    (insertDesc p l).Perm (p :: l) := by
  induction l with
  | nil => simp [insertDesc]
  | cons q qs ih =>
    by_cases h : q.2 ≤ p.2
    · simp [insertDesc, h]
    · simp only [insertDesc, if_neg h]
      exact List.Perm.trans (List.Perm.cons q ih) (List.Perm.swap p q qs)

theorem pySortDesc_perm (l : List (β × K)) : (pySortDesc l).Perm l := by
  induction l with
  | nil => simp [pySortDesc]
  | cons p ps ih =>
    exact List.Perm.trans (insertDesc_perm p (pySortDesc ps)) (List.Perm.cons p ih)

theorem insertDesc_sorted (p : β × K) {l : List (β × K)}
    (hl : l.Pairwise (fun a b => b.2 ≤ a.2)) :
    (insertDesc p l).Pairwise (fun a b => b.2 ≤ a.2) := by
  induction l with
  | nil => simp [insertDesc]
  | cons q qs ih =>
    rcases List.pairwise_cons.mp hl with ⟨hq, hqs⟩
    by_cases h : q.2 ≤ p.2
    · simp only [insertDesc, if_pos h]
      refine List.pairwise_cons.mpr ⟨?_, hl⟩
      intro b hb
      rcases List.mem_cons.mp hb with hb | hb
      · simpa [hb] using h
      · exact le_trans (hq b hb) h
    · simp only [insertDesc, if_neg h]
      refine List.pairwise_cons.mpr ⟨?_, ih hqs⟩
      intro b hb
      have hb' := (insertDesc_perm p qs).mem_iff.mp hb
      rcases List.mem_cons.mp hb' with hb' | hb'
      · subst hb'; exact le_of_not_le h
      · exact hq b hb'

theorem pySortDesc_sorted (l : List (β × K)) :
    (pySortDesc l).Pairwise (fun a b => b.2 ≤ a.2) := by
  induction l with
  | nil => simp [pySortDesc]
  | cons p ps ih => exact insertDesc_sorted p ih

/-- Stability of the insertion step, expressed through filtering by key:
the inserted element lands after every strictly greater key and before the
rest, so among any fixed key it comes first relative to the old list. -/
theorem filter_insertDesc (p : β × K) (l : List (β × K)) (k : K) :
    (insertDesc p l).filter (fun q => decide (q.2 = k)) =
      if p.2 = k then p :: l.filter (fun q => decide (q.2 = k))
      else l.filter (fun q => decide (q.2 = k)) := by
  induction l with
  | nil =>
    by_cases hp : p.2 = k <;> simp [insertDesc, hp]
  | cons q qs ih =>
    simp only [insertDesc]
    by_cases h : q.2 ≤ p.2
    · rw [if_pos h]
      by_cases hp : p.2 = k <;> by_cases hq : q.2 = k <;>
        simp [List.filter_cons, hp, hq]
    · rw [if_neg h]
      by_cases hq : q.2 = k
      · have hp : ¬ p.2 = k := fun hpk => h (le_of_eq (hq.trans hpk.symm))
        simp [List.filter_cons, hq, hp, ih]
      · by_cases hp : p.2 = k <;> simp [List.filter_cons, hq, hp, ih]

/-- Stability of the whole sort: the subsequence of elements carrying any
fixed key is unchanged, i.e. equal keys keep their original order. -/
theorem filter_pySortDesc (l : List (β × K)) (k : K) :
    (pySortDesc l).filter (fun q => decide (q.2 = k)) =
      l.filter (fun q => decide (q.2 = k)) := by
  induction l with
  | nil => simp [pySortDesc]
  | cons p ps ih =>
    by_cases hp : p.2 = k
    · simp [pySortDesc, filter_insertDesc, hp, ih]
    · simp [pySortDesc, filter_insertDesc, hp, ih]

end PySortLemmas

/-!
## Properties of boilerplate removal
-/

mutual
theorem elemHeads_removeNode_subset (p : String → List (String × String) → Bool)
    (n m : HNode) (hm : removeNode p n = some m) :
    ∀ ta, ta ∈ elemHeads m → ta ∈ elemHeads n := by
  cases n with
  | text s =>
    simp only [removeNode, Option.some.injEq] at hm
    subst hm; intro ta h; exact h
  | elem t a cs =>
    simp only [removeNode] at hm
    by_cases hp : p t a
    · simp [hp] at hm
    · simp only [if_neg hp, Option.some.injEq] at hm
      subst hm
      intro ta h
      simp only [elemHeads] at h ⊢
      rcases List.mem_cons.mp h with h | h
      · exact List.mem_cons.mpr (Or.inl h)
      · exact List.mem_cons.mpr (Or.inr (elemHeadsF_removeForest_subset p cs ta h))

theorem elemHeadsF_removeForest_subset (p : String → List (String × String) → Bool)
    (ns : List HNode) :
    ∀ ta, ta ∈ elemHeadsF (removeForest p ns) → ta ∈ elemHeadsF ns := by
  cases ns with
  | nil => intro ta h; simpa [removeForest] using h
  | cons n ns =>
    intro ta h
    simp only [removeForest] at h
    simp only [elemHeadsF, List.mem_append]
    cases hm : removeNode p n with
    | none =>
      rw [hm] at h
      exact Or.inr (elemHeadsF_removeForest_subset p ns ta h)
    | some m =>
      rw [hm] at h
      simp only [elemHeadsF, List.mem_append] at h
      rcases h with h | h
      · exact Or.inl (elemHeads_removeNode_subset p n m hm ta h)
      · exact Or.inr (elemHeadsF_removeForest_subset p ns ta h)
end

mutual
theorem elemHeads_removeNode_clean (p : String → List (String × String) → Bool)
    (n m : HNode) (hm : removeNode p n = some m) :
    ∀ ta, ta ∈ elemHeads m → p ta.1 ta.2 = false := by
  cases n with
  | text s =>
    simp only [removeNode, Option.some.injEq] at hm
    subst hm; intro ta h; simp [elemHeads] at h
  | elem t a cs =>
    simp only [removeNode] at hm
    by_cases hp : p t a
    · simp [hp] at hm
    · simp only [if_neg hp, Option.some.injEq] at hm
      subst hm
      intro ta h
      simp only [elemHeads] at h
      rcases List.mem_cons.mp h with h | h
      · subst h; simpa using hp
      · exact elemHeadsF_removeForest_clean p cs ta h

theorem elemHeadsF_removeForest_clean (p : String → List (String × String) → Bool)
    (ns : List HNode) :
    ∀ ta, ta ∈ elemHeadsF (removeForest p ns) → p ta.1 ta.2 = false := by
  cases ns with
  | nil => intro ta h; simp [removeForest, elemHeadsF] at h
  | cons n ns =>
    intro ta h
    simp only [removeForest] at h
    cases hm : removeNode p n with
    | none =>
      rw [hm] at h
      exact elemHeadsF_removeForest_clean p ns ta h
    | some m =>
      rw [hm] at h
      simp only [elemHeadsF, List.mem_append] at h
      rcases h with h | h
      · exact elemHeads_removeNode_clean p n m hm ta h
      · exact elemHeadsF_removeForest_clean p ns ta h
end

mutual
theorem removeNode_of_clean (p : String → List (String × String) → Bool)
    (n : HNode) (hc : ∀ ta, ta ∈ elemHeads n → p ta.1 ta.2 = false) :
    removeNode p n = some n := by
  cases n with
  | text s => simp [removeNode]
  | elem t a cs =>
    have hta : p t a = false := hc (t, a) (by simp [elemHeads])
    simp only [removeNode, hta, Bool.false_eq_true, if_false, Option.some.injEq]
    rw [removeForest_of_clean p cs]
    intro ta h
    exact hc ta (by simp [elemHeads, List.mem_cons]; exact Or.inr h)

theorem removeForest_of_clean (p : String → List (String × String) → Bool)
    (ns : List HNode) (hc : ∀ ta, ta ∈ elemHeadsF ns → p ta.1 ta.2 = false) :
    removeForest p ns = ns := by
  cases ns with
  | nil => simp [removeForest]
  | cons n ns =>
    simp only [removeForest]
    rw [removeNode_of_clean p n (fun ta h => hc ta (by simp [elemHeadsF, List.mem_append]; exact Or.inl h))]
    rw [removeForest_of_clean p ns (fun ta h => hc ta (by simp [elemHeadsF, List.mem_append]; exact Or.inr h))]
end

theorem elemHeadsF_foldl_subset
    (passes : List (String → List (String × String) → Bool)) (d : List HNode) :
    ∀ ta, ta ∈ elemHeadsF (passes.foldl (fun d p => removeForest p d) d) →
      ta ∈ elemHeadsF d := by
  induction passes generalizing d with
  | nil => intro ta h; simpa using h
  | cons p ps ih =>
    intro ta h
    exact elemHeadsF_removeForest_subset p d ta (ih (removeForest p d) ta h)

theorem elemHeadsF_foldl_clean
    (passes : List (String → List (String × String) → Bool))
    (q : String → List (String × String) → Bool) (hq : q ∈ passes) (d : List HNode) :
    ∀ ta, ta ∈ elemHeadsF (passes.foldl (fun d p => removeForest p d) d) →
      q ta.1 ta.2 = false := by
  induction passes generalizing d with
  | nil => cases hq
  | cons p ps ih =>
    intro ta h
    rcases List.mem_cons.mp hq with hqp | hq'
    · subst hqp
      exact elemHeadsF_removeForest_clean q d ta
        (elemHeadsF_foldl_subset ps (removeForest q d) ta h)
    · exact ih hq' (removeForest p d) ta h

theorem foldl_removeForest_of_clean
    (passes : List (String → List (String × String) → Bool)) (d : List HNode)
    (hc : ∀ q ∈ passes, ∀ ta ∈ elemHeadsF d, q ta.1 ta.2 = false) :
    passes.foldl (fun d p => removeForest p d) d = d := by
  induction passes with
  | nil => rfl
  | cons p ps ih =>
    have h1 : removeForest p d = d :=
      removeForest_of_clean p d (fun ta h => hc p (List.mem_cons_self p ps) ta h)
    simp only [List.foldl_cons, h1]
    exact ih (fun q hq ta h => hc q (List.mem_cons_of_mem p hq) ta h)

/-- Every element surviving the boilerplate sweep is clean of every pass. -/
theorem stripBoilerplate_clean (doc : List HNode) :
    ∀ ta ∈ elemHeadsF (stripBoilerplate doc), denylisted ta.1 ta.2 = false := by
  intro ta h
  have : ∀ q ∈ removalPasses, q ta.1 ta.2 = false := fun q hq =>
    elemHeadsF_foldl_clean removalPasses q hq doc ta h
  simp only [denylisted, List.any_eq_false]
  intro p hp
  simp [this p hp]

/-- Running the boilerplate sweep twice is the same as running it once. -/
theorem stripBoilerplate_idem (doc : List HNode) :
    stripBoilerplate (stripBoilerplate doc) = stripBoilerplate doc :=
  foldl_removeForest_of_clean removalPasses (stripBoilerplate doc)
    (fun q hq ta hta => elemHeadsF_foldl_clean removalPasses q hq doc ta hta)

/-!
## Support lemmas
-/

theorem batchScores_ok (score : String → ℚ) (cands : List String) :
    batchScores (fun c => .ok (score c)) cands = .ok (cands.map score) := by
  induction cands with
  | nil => rfl
  | cons c cs ih => simp [batchScores, ih]

theorem zip_map_self (score : String → ℚ) (cands : List String) :
    cands.zip (cands.map score) = scoreList score cands := by
  induction cands with
  | nil => rfl
  | cons c cs ih => simp [scoreList] at ih ⊢; exact ih

theorem scoreList_map_fst (score : String → ℚ) (cands : List String) :
    (scoreList score cands).map Prod.fst = cands := by
  induction cands with
  | nil => rfl
  | cons c cs ih => simp [scoreList] at ih ⊢; exact ih

theorem normSq_nonneg (a : List ℚ) : 0 ≤ normSq a := by
  refine List.sum_nonneg ?_
  intro y hy
  rcases List.mem_map.mp hy with ⟨z, _, rfl⟩
  exact mul_self_nonneg z

theorem normSq_eq_zero_iff (a : List ℚ) : normSq a = 0 ↔ ∀ x ∈ a, x = 0 := by
  induction a with
  | nil => simp [normSq]
  | cons x xs ih =>
    simp only [normSq, List.map_cons, List.sum_cons] at *
    constructor
    · intro h
      have hx2 : 0 ≤ x * x := mul_self_nonneg x
      have hxs : 0 ≤ (xs.map (fun y => y * y)).sum := by
        refine List.sum_nonneg ?_
        intro y hy
        rcases List.mem_map.mp hy with ⟨z, _, rfl⟩
        exact mul_self_nonneg z
      have h1 : x * x = 0 := le_antisymm (by linarith) hx2
      have h2 : (xs.map (fun y => y * y)).sum = 0 := by linarith
      intro y hy
      rcases List.mem_cons.mp hy with rfl | hy
      · exact mul_self_eq_zero.mp h1
      · exact (ih.mp h2) y hy
    · intro h
      have hx : x = 0 := h x (List.mem_cons_self x xs)
      have hxs : ∀ y ∈ xs, y = 0 := fun y hy => h y (List.mem_cons_of_mem x hy)
      simp [hx, ih.mpr hxs]

theorem npNorm_eq_zero_iff (a : List ℚ) : npNorm a = 0 ↔ ∀ x ∈ a, x = 0 := by
  rw [npNorm, Real.sqrt_eq_zero']
  constructor
  · intro h
    have h0 : (normSq a : ℝ) = 0 := le_antisymm h (by exact_mod_cast normSq_nonneg a)
    exact (normSq_eq_zero_iff a).mp (by exact_mod_cast h0)
  · intro h
    have h0 : normSq a = 0 := (normSq_eq_zero_iff a).mpr h
    simp [h0]

theorem npNorm_nonneg (a : List ℚ) : 0 ≤ npNorm a := Real.sqrt_nonneg _

theorem levelHeadings_perm {l1 l2 : List HeadingSet} (proj : HeadingSet → List String)
    (h : l1.Perm l2) :
    (levelHeadings l1 proj).Perm (levelHeadings l2 proj) :=
  (h.map proj).flatten

theorem levelStats_perm {xs ys : List String} (h : xs.Perm ys) :
    (levelStats xs).count = (levelStats ys).count ∧
      (levelStats xs).avg_length = (levelStats ys).avg_length := by
  have hlen := h.length_eq
  have hsum : (xs.map (fun s => (pyLen s : ℚ))).sum = (ys.map (fun s => (pyLen s : ℚ))).sum :=
    (h.map _).sum_eq
  have hemp : xs.isEmpty = ys.isEmpty := by
    cases xs <;> cases ys <;> simp_all
  exact ⟨by simp [levelStats, hlen], by simp [levelStats, hemp, hlen, hsum]⟩

/-!
## The claims
-/

/-- C1: the claim asserts the extractor never raises, in particular when a
title element has no direct string content or a meta description tag lacks a
content attribute.  The code contradicts the claim at exactly those inputs:
a childless `<title>` makes `soup.title.string` equal `None`, so
`.strip()` raises `AttributeError` (line 71), and a
`<meta name="description">` without `content` makes the subscript on line 73
raise `KeyError`.  This theorem evaluates the embedded extractor at both
failing documents. -/
theorem claim_C1_extractor_raises :
    extract_headings_and_body
        [.elem "html" [] [.elem "head" [] [.elem "title" [] []]]] =
      .error "AttributeError: NoneType object has no attribute strip"
    ∧ extract_headings_and_body [.elem "meta" [("name", "description")] []] =
      .error "KeyError: content" :=
  ⟨rfl, rfl⟩

/-- C2, counterexample: with a zero-norm first vector the code divides
`0.0` by `0.0` (NaN, modelled `none`); it does not return `0` as the claim
states. -/
theorem claim_C2_counterexample :
    cosine_similarity [0] [1] = none ∧ cosine_similarity [0] [1] ≠ some 0 := by
  have h : cosine_similarity [0] [1] = none := by
    simp [cosine_similarity, fdiv, npNorm, normSq, dotQ]
  exact ⟨h, by simp [h]⟩

/-- C2, amended: `cosine_similarity` is `dot(a,b) / (norm(a)*norm(b))` and
never raises, but it has no zero-norm guard: with a zero-norm operand the
division is `0/0`, a NaN (`none`), not `0`; the quotient is returned exactly
when both vectors have a non-zero entry. -/
theorem claim_C2_amended (a b : List ℚ) :
    (cosine_similarity a b = none ↔ (∀ x ∈ a, x = 0) ∨ (∀ x ∈ b, x = 0))
    ∧ ((∃ x ∈ a, x ≠ 0) → (∃ x ∈ b, x ≠ 0) →
        cosine_similarity a b =
          some (((dotQ a b : ℚ) : ℝ) / (npNorm a * npNorm b))) := by
  constructor
  · rw [cosine_similarity, fdiv]
    constructor
    · intro h
      by_cases hz : npNorm a * npNorm b = 0
      · rcases mul_eq_zero.mp hz with hz | hz
        · exact Or.inl ((npNorm_eq_zero_iff a).mp hz)
        · exact Or.inr ((npNorm_eq_zero_iff b).mp hz)
      · simp [hz] at h
    · intro h
      have hz : npNorm a * npNorm b = 0 := by
        rcases h with h | h
        · rw [(npNorm_eq_zero_iff a).mpr h]; ring
        · rw [(npNorm_eq_zero_iff b).mpr h]; ring
      simp [hz]
  · intro ha hb
    rcases ha with ⟨x, hx, hx0⟩
    rcases hb with ⟨y, hy, hy0⟩
    have hna : npNorm a ≠ 0 := fun hz => hx0 ((npNorm_eq_zero_iff a).mp hz x hx)
    have hnb : npNorm b ≠ 0 := fun hz => hy0 ((npNorm_eq_zero_iff b).mp hz y hy)
    have hz : npNorm a * npNorm b ≠ 0 := mul_ne_zero hna hnb
    simp [cosine_similarity, fdiv, hz]

/-- C2, witness for the amended theorem at `a = b = [1]`. -/
theorem claim_C2_amended_witness :
    cosine_similarity [1] [1] = some (((dotQ [1] [1] : ℚ) : ℝ) / (npNorm [1] * npNorm [1])) :=
  (claim_C2_amended [1] [1]).2 ⟨1, by simp, one_ne_zero⟩ ⟨1, by simp, one_ne_zero⟩

/-- C3, counterexample: the spec-side policy formula makes the Short-tier
bounds move with `total_heading_count` (extra `0` at count `0` versus extra
`2` at count `41`, shifting `effective_min` from `5` to `7`), but the code's
length policy and the whole generation prompt are untouched by the heading
analysis: two analyses that differ exactly in `total_heading_count` (0
versus 41) produce identical prompts.  No `extra`/`effective_min`/
`effective_max` computation exists in the source. -/
theorem claim_C3_counterexample :
    (specSizePolicy 5 8 0).extra = 0
    ∧ (specSizePolicy 5 8 0).effective_min = 5
    ∧ (specSizePolicy 5 8 0).effective_max = 8
    ∧ (specSizePolicy 5 8 41).extra = 2
    ∧ (specSizePolicy 5 8 41).effective_min = 7
    ∧ (specSizePolicy 5 8 41).effective_max = 10
    ∧ (⟨⟨0, 0, [], []⟩, ⟨0, 0, [], []⟩, ⟨0, 0, [], []⟩, ⟨0, 0, [], []⟩, 0⟩ : HeadingAnalysis)
        ≠ ⟨⟨0, 0, [], []⟩, ⟨0, 0, [], []⟩, ⟨0, 0, [], []⟩, ⟨0, 0, [], []⟩, 41⟩
    ∧ generate_optimized_structure_prompt "widgets"
        ⟨⟨0, 0, [], []⟩, ⟨0, 0, [], []⟩, ⟨0, 0, [], []⟩, ⟨0, 0, [], []⟩, 0⟩
        "meta" "Full Content" "Short" (fun _ => .error "service down") [] []
      = generate_optimized_structure_prompt "widgets"
        ⟨⟨0, 0, [], []⟩, ⟨0, 0, [], []⟩, ⟨0, 0, [], []⟩, ⟨0, 0, [], []⟩, 41⟩
        "meta" "Full Content" "Short" (fun _ => .error "service down") [] [] := by
  refine ⟨by decide, by decide, by decide, by decide, by decide, by decide, by decide, rfl⟩

/-- C3, amended: in this variant the length policy depends on the tier
alone.  The `word_count_range`/`paragraph_guidance` pair is selected purely
by the `article_length` string, and the generation prompt is identical for
any two heading analyses: `total_heading_count` never reaches the policy, and
no `extra` bonus or effective bounds are computed. -/
theorem claim_C3_policy_tier_only (keyword : String) (ha ha' : HeadingAnalysis)
    (competitor_meta_info content_mode article_length : String)
    (score : String → Except String ℚ)
    (all_headings : List HeadingSet) (all_paragraphs : List (List String)) :
    generate_optimized_structure_prompt keyword ha competitor_meta_info
        content_mode article_length score all_headings all_paragraphs =
      generate_optimized_structure_prompt keyword ha' competitor_meta_info
        content_mode article_length score all_headings all_paragraphs
    ∧ word_count_range "Short" = "around 750 words"
    ∧ word_count_range "Medium" = "approximately 1250-1500 words"
    ∧ word_count_range "Long" = "approximately 1500-3000 words" :=
  ⟨rfl, rfl, rfl, rfl⟩

/-- C4: text living only inside denylisted elements never reaches the
heading output.  First, the extractor's result is a function of the
boilerplate-swept document alone — deleting every denylisted subtree up
front changes nothing, so content inside those subtrees cannot influence
any extracted heading (or anything else in the `PageExtract`).  Second, no
element with a removed tag type or a denylisted `class`/`id` survives the
sweep that the heading search then runs on. -/
theorem claim_C4_denylist_removed (doc : List HNode) :
    extract_headings_and_body (stripBoilerplate doc) = extract_headings_and_body doc
    ∧ ∀ ta ∈ elemHeadsF (stripBoilerplate doc), denylisted ta.1 ta.2 = false := by
  constructor
  · unfold extract_headings_and_body
    rw [stripBoilerplate_idem]
  · exact stripBoilerplate_clean doc

/-- C4, witness: concrete document with a `nav` subtree and a denylisted
`class="sidebar"` subtree, whose heading text indeed does not survive. -/
theorem claim_C4_denylist_removed_witness :
    extract_headings_and_body
        (stripBoilerplate
          [.elem "nav" [] [.elem "h2" [] [.text "Menu"]],
           .elem "div" [("class", "sidebar")] [.elem "h2" [] [.text "Widgets"]],
           .elem "div" [] [.elem "h2" [] [.text "Topic"]]]) =
      extract_headings_and_body
        [.elem "nav" [] [.elem "h2" [] [.text "Menu"]],
         .elem "div" [("class", "sidebar")] [.elem "h2" [] [.text "Widgets"]],
         .elem "div" [] [.elem "h2" [] [.text "Topic"]]]
    ∧ denylisted "div" [] = false :=
  ⟨(claim_C4_denylist_removed
      [.elem "nav" [] [.elem "h2" [] [.text "Menu"]],
       .elem "div" [("class", "sidebar")] [.elem "h2" [] [.text "Widgets"]],
       .elem "div" [] [.elem "h2" [] [.text "Topic"]]]).1,
   (claim_C4_denylist_removed
      [.elem "nav" [] [.elem "h2" [] [.text "Menu"]],
       .elem "div" [("class", "sidebar")] [.elem "h2" [] [.text "Widgets"]],
       .elem "div" [] [.elem "h2" [] [.text "Topic"]]]).2 ("div", []) (by decide)⟩

/-- C5, counterexample: for the token stream `a b b a` both tokens have
frequency 2, and `b` is the first to reach that frequency (two occurrences
within the first three tokens, versus one for `a`), yet `most_common`
lists `a` first.  The tie-break is first-*encounter* (first-occurrence)
order, not "first token to reach a given frequency". -/
theorem claim_C5_counterexample :
    pyWords (pyLower (pyJoin " " ["a b", "b a"])) = ["a", "b", "b", "a"]
    ∧ most_common 10 (pyWords (pyLower (pyJoin " " ["a b", "b a"]))) = [("a", 2), ("b", 2)]
    ∧ (["a", "b", "b", "a"].take 3).count "b" = 2
    ∧ (["a", "b", "b", "a"].take 3).count "a" = 1 := by
  refine ⟨by decide, by decide, by decide, by decide⟩

/-- C5, amended: each level's top-terms list is `most_common(10)` of the
lowercased whitespace tokens of the joined heading text: at most ten
`(term, frequency)` pairs, a permutation prefix of the counter items sorted
by descending frequency, with ties kept in first-occurrence order (the
counter items are the distinct tokens in first-seen order, and the sort
never reorders items of equal frequency). -/
theorem claim_C5_top_terms (hs : List String) :
    most_common 10 (pyWords (pyLower (pyJoin " " hs)))
        = (pySortDesc (counterItems (pyWords (pyLower (pyJoin " " hs))))).take 10
    ∧ (pySortDesc (counterItems (pyWords (pyLower (pyJoin " " hs))))).Perm
        (counterItems (pyWords (pyLower (pyJoin " " hs))))
    ∧ (pySortDesc (counterItems (pyWords (pyLower (pyJoin " " hs))))).Pairwise
        (fun p q => q.2 ≤ p.2)
    ∧ (∀ k : ℕ,
        (pySortDesc (counterItems (pyWords (pyLower (pyJoin " " hs))))).filter
            (fun p => decide (p.2 = k))
          = (counterItems (pyWords (pyLower (pyJoin " " hs)))).filter
              (fun p => decide (p.2 = k)))
    ∧ (counterItems (pyWords (pyLower (pyJoin " " hs)))).map Prod.fst
        = firstSeen (pyWords (pyLower (pyJoin " " hs)))
    ∧ (most_common 10 (pyWords (pyLower (pyJoin " " hs)))).length ≤ 10
    ∧ (levelStats hs).common_words = most_common 10 (pyWords (pyLower (pyJoin " " hs))) := by
  refine ⟨rfl, pySortDesc_perm _, pySortDesc_sorted _, fun k => filter_pySortDesc _ k, ?_, ?_, rfl⟩
  · rw [counterItems]
    generalize firstSeen (pyWords (pyLower (pyJoin " " hs))) = l
    induction l with
    | nil => rfl
    | cons t ts ih => simp only [List.map_cons, List.map_map] at ih ⊢; simp [ih]
  · rw [most_common]
    exact List.length_take_le 10 _

/-- C6: heading aggregation over permuted document lists yields the same
per-level counts and average character lengths and the same total, and the
total is the sum of the four per-level counts. -/
theorem claim_C6_aggregation_perm_invariant (l1 l2 : List HeadingSet)
    (hperm : l1.Perm l2) :
    ((analyze_headings l1).h1.count = (analyze_headings l2).h1.count
      ∧ (analyze_headings l1).h2.count = (analyze_headings l2).h2.count
      ∧ (analyze_headings l1).h3.count = (analyze_headings l2).h3.count
      ∧ (analyze_headings l1).h4.count = (analyze_headings l2).h4.count)
    ∧ ((analyze_headings l1).h1.avg_length = (analyze_headings l2).h1.avg_length
      ∧ (analyze_headings l1).h2.avg_length = (analyze_headings l2).h2.avg_length
      ∧ (analyze_headings l1).h3.avg_length = (analyze_headings l2).h3.avg_length
      ∧ (analyze_headings l1).h4.avg_length = (analyze_headings l2).h4.avg_length)
    ∧ (analyze_headings l1).total_headings_count = (analyze_headings l2).total_headings_count
    ∧ (analyze_headings l1).total_headings_count =
        (analyze_headings l1).h1.count + (analyze_headings l1).h2.count
          + (analyze_headings l1).h3.count + (analyze_headings l1).h4.count := by
  have p1 := levelHeadings_perm HeadingSet.h1 hperm
  have p2 := levelHeadings_perm HeadingSet.h2 hperm
  have p3 := levelHeadings_perm HeadingSet.h3 hperm
  have p4 := levelHeadings_perm HeadingSet.h4 hperm
  refine ⟨⟨(levelStats_perm p1).1, (levelStats_perm p2).1,
           (levelStats_perm p3).1, (levelStats_perm p4).1⟩,
          ⟨(levelStats_perm p1).2, (levelStats_perm p2).2,
           (levelStats_perm p3).2, (levelStats_perm p4).2⟩,
          ?_, ?_⟩
  · simp [analyze_headings, p1.length_eq, p2.length_eq, p3.length_eq, p4.length_eq]
  · simp [analyze_headings, levelStats]

/-- C6, witness: two documents in either order give the same counts and the
same total. -/
theorem claim_C6_witness :
    (analyze_headings [⟨["A"], ["B"], [], []⟩, ⟨[], ["C"], ["D"], []⟩]).total_headings_count =
      (analyze_headings [⟨[], ["C"], ["D"], []⟩, ⟨["A"], ["B"], [], []⟩]).total_headings_count :=
  (claim_C6_aggregation_perm_invariant
    [⟨["A"], ["B"], [], []⟩, ⟨[], ["C"], ["D"], []⟩]
    [⟨[], ["C"], ["D"], []⟩, ⟨["A"], ["B"], [], []⟩]
    (List.Perm.swap (⟨[], ["C"], ["D"], []⟩ : HeadingSet)
      (⟨["A"], ["B"], [], []⟩ : HeadingSet) [])).2.2.1

/-- C7: for any fixed (total) scoring function and non-empty candidate
list, the ranked heading/paragraph pipeline takes the scored candidates,
sorts them by strictly descending score with ties kept stably in original
candidate order (the filter identity: the subsequence at any fixed score is
untouched), and returns the texts of the first five — all of them when
fewer than five candidates exist. -/
theorem claim_C7_ranker (score : String → ℚ) (cands : List String)
    (hne : cands ≠ []) :
    topFragments (scoreList score cands)
        = ((pySortDesc (scoreList score cands)).take 5).map Prod.fst
    ∧ (pySortDesc (scoreList score cands)).Perm (scoreList score cands)
    ∧ (pySortDesc (scoreList score cands)).Pairwise (fun p q => q.2 ≤ p.2)
    ∧ (∀ k : ℚ, (pySortDesc (scoreList score cands)).filter (fun p => decide (p.2 = k))
        = (scoreList score cands).filter (fun p => decide (p.2 = k)))
    ∧ (cands.length ≤ 5 →
        topFragments (scoreList score cands)
          = (pySortDesc (scoreList score cands)).map Prod.fst) := by
  refine ⟨rfl, pySortDesc_perm _, pySortDesc_sorted _, fun k => filter_pySortDesc _ k, ?_⟩
  intro hlen
  have h1 : (pySortDesc (scoreList score cands)).length = cands.length := by
    rw [(pySortDesc_perm (scoreList score cands)).length_eq]
    simp [scoreList]
  rw [topFragments, List.take_of_length_le (by rw [h1]; exact hlen)]

/-- C7, witness at one candidate and the constant-zero scorer. -/
theorem claim_C7_ranker_witness :
    (pySortDesc (scoreList (fun _ => (0 : ℚ)) ["alpha"])).Perm
      (scoreList (fun _ => (0 : ℚ)) ["alpha"]) :=
  (claim_C7_ranker (fun _ => 0) ["alpha"] (by decide)).2.1

/-- C8: with no candidate fragments, both insight generators return their
explicit sentinel text, succeeding even for a scorer that always fails —
the empty check happens before any embedding request, so the embedding
service is never consulted and nothing is raised. -/
theorem claim_C8_empty_candidates (score : String → Except String ℚ)
    (all_headings : List HeadingSet) (all_paragraphs : List (List String)) :
    (semanticCandidates all_headings = [] →
      generate_semantic_insights score all_headings = .ok semanticSentinel)
    ∧ (bodyCandidates all_paragraphs = [] →
      generate_body_insights score all_paragraphs = .ok bodySentinel) := by
  constructor
  · intro h
    simp [generate_semantic_insights, h]
  · intro h
    simp [generate_body_insights, h]

/-- C8, witness: no headings at all, and a single too-short paragraph, with
an always-failing embedding service. -/
theorem claim_C8_empty_candidates_witness :
    generate_semantic_insights (fun _ => .error "service down") [] = .ok semanticSentinel
    ∧ generate_body_insights (fun _ => .error "service down") [["too short"]]
        = .ok bodySentinel :=
  ⟨(claim_C8_empty_candidates (fun _ => .error "service down") [] [["too short"]]).1 rfl,
   (claim_C8_empty_candidates (fun _ => .error "service down") [] [["too short"]]).2
     (by decide)⟩

/-- C9: the candidates scored for body relevance are exactly the extracted
paragraphs with whitespace-split word count above five, so a paragraph of
five or fewer words is never scored; the threshold acts once, at ranking
time — extraction itself keeps short paragraphs, as the concrete
five-word document shows. -/
theorem claim_C9_short_paragraphs_excluded
    (all_paragraphs : List (List String)) (p : String) :
    (p ∈ bodyCandidates all_paragraphs ↔
      p ∈ all_paragraphs.flatten ∧ 5 < wordCount p)
    ∧ (wordCount p ≤ 5 → p ∉ bodyCandidates all_paragraphs)
    ∧ extract_headings_and_body [.elem "p" [] [.text "just five small words here"]]
        = .ok ⟨"", "", ⟨[], [], [], []⟩, ["just five small words here"]⟩
    ∧ bodyCandidates [["just five small words here"]] = [] := by
  refine ⟨?_, ?_, rfl, by decide⟩
  · rw [bodyCandidates, List.mem_filter]
    simp only [decide_eq_true_eq]
  · intro hle hmem
    have h := (List.mem_filter.mp hmem).2
    simp only [decide_eq_true_eq] at h
    omega

/-- C9, witness: a two-word paragraph is not among the ranking candidates. -/
theorem claim_C9_short_paragraphs_excluded_witness :
    "tiny one" ∉ bodyCandidates [["tiny one"]] :=
  (claim_C9_short_paragraphs_excluded [["tiny one"]] "tiny one").2.1 (by decide)

/-- C10: heading-ranking candidates are each document's `h2`, `h3` then
`h4` lists in document order; the `h1` field never influences the candidate
list, and every ranked top fragment originates in some document's
`h2`/`h3`/`h4` list. -/
theorem claim_C10_h1_never_ranked (score : String → ℚ) (hs : List HeadingSet) :
    semanticCandidates hs = hs.flatMap (fun h => h.h2 ++ h.h3 ++ h.h4)
    ∧ (∀ f : HeadingSet → List String,
        semanticCandidates (hs.map (fun h => { h with h1 := f h }))
          = semanticCandidates hs)
    ∧ (∀ s, s ∈ topFragments (scoreList score (semanticCandidates hs)) →
        ∃ h ∈ hs, s ∈ h.h2 ∨ s ∈ h.h3 ∨ s ∈ h.h4) := by
  refine ⟨rfl, ?_, ?_⟩
  · intro f
    induction hs with
    | nil => rfl
    | cons h t ih => simp [semanticCandidates] at ih ⊢; exact ih
  · intro s hmem
    rcases List.mem_map.mp hmem with ⟨q, hq, rfl⟩
    have hq1 : q ∈ pySortDesc (scoreList score (semanticCandidates hs)) :=
      List.mem_of_mem_take hq
    have hq2 : q ∈ scoreList score (semanticCandidates hs) :=
      (pySortDesc_perm _).mem_iff.mp hq1
    have hq3 : q.1 ∈ semanticCandidates hs := by
      have hmap := List.mem_map_of_mem Prod.fst hq2
      rwa [scoreList_map_fst] at hmap
    rcases List.mem_flatMap.mp hq3 with ⟨h, hh, hmem2⟩
    rcases List.mem_append.mp hmem2 with h23 | h4
    · rcases List.mem_append.mp h23 with h2 | h3
      · exact ⟨h, hh, Or.inl h2⟩
      · exact ⟨h, hh, Or.inr (Or.inl h3)⟩
    · exact ⟨h, hh, Or.inr (Or.inr h4)⟩

/-- C10, witness: with one document whose only headings are an `h1` and an
`h2`, the ranked fragment can only be the `h2` text. -/
theorem claim_C10_h1_never_ranked_witness :
    ∃ h ∈ [(⟨["One"], ["Two"], [], []⟩ : HeadingSet)],
      "Two" ∈ h.h2 ∨ "Two" ∈ h.h3 ∨ "Two" ∈ h.h4 :=
  (claim_C10_h1_never_ranked (fun _ => 0) [⟨["One"], ["Two"], [], []⟩]).2.2
    "Two" (by decide)
